import Mathlib

/-!
Verification of the playback core (`AudioEngine`, `src/src/types/index.ts`) of the
rhythm-creator-visualizer repository: a shallow embedding of the engine as a pure
state-transition system over ℚ, together with theorems settling the spec claims.

The engine's interaction with the external sound library (the shared transport
clock, per-track polyphonic synths) is embedded as explicit fields of the engine
state: the transport is one clock with a tempo, a started flag, a position, and a
list of registered triggers; a synth is a record of its construction preset, its
current linear gain, whether any notes are sounding, and whether it was disposed.
The code stores the gain as `Tone.gainToDb(volume)`; `gainToDb` is a strictly
monotone map from linear gain with `gainToDb 0 = -infinity` (silence), so we record
the linear gain, which determines the dB value.
-/

namespace RCV

/-- Note duration classes, from `NoteDuration` in `src/src/types/index.ts`. -/
inductive NoteDuration where
  | whole | half | quarter | eighth | sixteenth
deriving DecidableEq, Repr

/-- A note of a track, from the `Note` interface. Pitch is kept as the string
literal the code concatenates with the octave; position is a (fractional) beat
offset; velocity is the 0-1 velocity. -/
structure Note where
  id : String
  trackId : String
  pitch : String
  octave : Int
  duration : NoteDuration
  position : ℚ
  velocity : ℚ
deriving DecidableEq, Repr

/-- A track, from the `Track` interface (the fields the engine reads, plus the
`solo` flag of the data model). The instrument kind is a string, as it is at
runtime. -/
structure Track where
  id : String
  instrumentType : String
  volume : ℚ
  muted : Bool
  solo : Bool
  notes : List Note
deriving DecidableEq, Repr

/-- The attack/decay/sustain/release envelope of a synth preset. -/
structure Envelope where
  attack : ℚ
  decay : ℚ
  sustain : ℚ
  release : ℚ
deriving DecidableEq, Repr

/-- A synth construction preset: which synthesis engine class is used, its
oscillator waveform when one is configured, and its envelope when one is
configured. From the `switch (instrumentType)` in `createInstrument`. -/
structure SynthPreset where
  engine : String
  oscillator : Option String
  envelope : Option Envelope
deriving DecidableEq, Repr

/-- A live (or disposed) per-track polyphonic synth: its construction preset,
its current linear gain (the code stores `Tone.gainToDb` of this value), whether
any notes are currently sounding, and whether `dispose()` was called on it. -/
structure Synth where
  preset : SynthPreset
  gainLinear : ℚ
  sounding : Bool
  disposed : Bool
deriving DecidableEq, Repr

/-- Transport time in the library's bars:beats:sixteenths form; the code passes
the string `0:${note.position}:0`, i.e. bars and sixteenths 0 and the beat field
carrying the (possibly fractional) position. -/
structure TransportTime where
  bars : ℚ
  beats : ℚ
  sixteenths : ℚ
deriving DecidableEq, Repr

/-- A trigger registered on the transport: at transport time `time`, call
attack-release of `noteName` for `durationSeconds` with `velocity` on the synth
stored at index `synthIdx` of the creation log. From the closure passed to
`Tone.getTransport().schedule` in `scheduleTrack`. -/
structure Trigger where
  synthIdx : Nat
  noteName : String
  durationSeconds : ℚ
  time : TransportTime
  velocity : ℚ
deriving DecidableEq, Repr

/-- The engine state: the registry map from track id to an index into the
creation log `allSynths` (the log keeps every synth ever constructed so that
disposal can be observed), and the shared transport clock's tempo, started
flag, position and registered triggers, plus the engine's `isPlaying` flag. -/
structure EngineState where
  synths : List (String × Nat)
  allSynths : List Synth
  transportBpm : ℚ
  transportStarted : Bool
  transportPosition : ℚ
  scheduled : List Trigger
  isPlaying : Bool
deriving DecidableEq, Repr

/-- Association-list lookup: the first binding of the key, as a `Map.get`. -/
def lookupA (l : List (String × Nat)) (k : String) : Option Nat :=
  match l with
  | [] => none
  | (k2, v) :: rest => if k2 = k then some v else lookupA rest k

/-- Association-list update with `Map.set` semantics: replace the first binding
of the key in place, else append a new binding. -/
def setA (l : List (String × Nat)) (k : String) (v : Nat) : List (String × Nat) :=
  match l with
  | [] => [(k, v)]
  | (k2, v2) :: rest => if k2 = k then (k2, v) :: rest else (k2, v2) :: setA rest k v

/-- How many bindings of key `k` the association list holds. -/
def countKey : List (String × Nat) → String → Nat
  | [], _ => 0
  | (k2, _) :: rest, k => (if k2 = k then 1 else 0) + countKey rest k

/-- Replace the element at index `i` by `f` of it; out-of-range indices leave
the list unchanged. -/
def modifyIdx (l : List α) (i : Nat) (f : α → α) : List α :=
  match l, i with
  | [], _ => []
  | a :: rest, 0 => f a :: rest
  | a :: rest, n + 1 => a :: modifyIdx rest n f

/-- Map `f i a` over a list with indices starting at `k`. -/
def mapWithIdx (f : Nat → α → α) : Nat → List α → List α
  | _, [] => []
  | k, a :: rest => f k a :: mapWithIdx f (k + 1) rest

/-- The preset each `case` of the `switch (instrumentType)` in
`createInstrument` configures; the `default` branch builds a plain
`Tone.Synth` with no options. -/
def presetFor (kind : String) : SynthPreset :=
  if kind = "drums" then { engine := "MembraneSynth", oscillator := none, envelope := none }
  else if kind = "bass" then
    { engine := "MonoSynth", oscillator := some "sawtooth"
      envelope := some { attack := 1/100, decay := 1/5, sustain := 3/10, release := 1/2 } }
  else if kind = "synth" then
    { engine := "Synth", oscillator := some "square"
      envelope := some { attack := 5/1000, decay := 1/10, sustain := 3/10, release := 1 } }
  else if kind = "piano" then
    { engine := "Synth", oscillator := some "triangle"
      envelope := some { attack := 1/50, decay := 1/10, sustain := 3/5, release := 1 } }
  else if kind = "guitar" then
    { engine := "Synth", oscillator := some "triangle"
      envelope := some { attack := 1/100, decay := 2/5, sustain := 1/5, release := 7/5 } }
  else if kind = "pad" then
    { engine := "Synth", oscillator := some "sine"
      envelope := some { attack := 4/5, decay := 1/2, sustain := 4/5, release := 2 } }
  else { engine := "Synth", oscillator := none, envelope := none }

/-- A freshly constructed synth: its preset, unity gain (0 dB), nothing
sounding, not disposed. -/
def newSynth (kind : String) : Synth :=
  { preset := presetFor kind, gainLinear := 1, sounding := false, disposed := false }

/-- `dispose()` on a synth. -/
def disposeS (sy : Synth) : Synth := { sy with disposed := true }

/-- `AudioEngine.createInstrument`: if the registry already has a synth for the
track id, dispose it; then construct a new synth per the instrument kind and
store it under the id. -/
def createInstrument (trackId : String) (kind : String) (s : EngineState) : EngineState :=
  let s0 :=
    match lookupA s.synths trackId with
    | some i => { s with allSynths := modifyIdx s.allSynths i disposeS }
    | none => s
  { s0 with
    allSynths := s0.allSynths ++ [newSynth kind]
    synths := setA s0.synths trackId s0.allSynths.length }

/-- `AudioEngine.setTrackVolume`: set the synth's gain from the linear volume;
no-op when no synth is registered for the id. -/
def setTrackVolume (trackId : String) (volume : ℚ) (s : EngineState) : EngineState :=
  match lookupA s.synths trackId with
  | some i =>
      { s with allSynths := modifyIdx s.allSynths i (fun sy => { sy with gainLinear := volume }) }
  | none => s

/-- `AudioEngine.setTempo`: set the shared transport's bpm. -/
def setTempo (bpm : ℚ) (s : EngineState) : EngineState :=
  { s with transportBpm := bpm }

/-- `AudioEngine.getDurationInSeconds`: the duration map built from
`beatDuration = 60 / bpm`. -/
def getDurationInSeconds (duration : NoteDuration) (bpm : ℚ) : ℚ :=
  let beatDuration := 60 / bpm
  match duration with
  | .whole => beatDuration * 4
  | .half => beatDuration * 2
  | .quarter => beatDuration
  | .eighth => beatDuration / 2
  | .sixteenth => beatDuration / 4

/-- The note name the code builds: pitch string concatenated with the octave. -/
def mkNoteName (n : Note) : String := n.pitch ++ toString n.octave

/-- The linear gain `scheduleTrack` applies to a track's synth:
`track.muted ? 0 : track.volume` (line 191 of the source). -/
def effectiveGain (t : Track) : ℚ := if t.muted then 0 else t.volume

/-- `AudioEngine.scheduleTrack`: create a synth if none is registered for the
track id, apply the mute-resolved volume, then register one trigger per note of
the track at transport time `0:${note.position}:0`, with the duration in
seconds computed from the transport's current bpm at schedule time. -/
def scheduleTrack (track : Track) (s : EngineState) : EngineState :=
  let s1 :=
    if (lookupA s.synths track.id).isNone then createInstrument track.id track.instrumentType s
    else s
  let s2 := setTrackVolume track.id (effectiveGain track) s1
  match lookupA s2.synths track.id with
  | none => s2
  | some i =>
      { s2 with
        scheduled := s2.scheduled ++ track.notes.map (fun n =>
          { synthIdx := i
            noteName := mkNoteName n
            durationSeconds := getDurationInSeconds n.duration s2.transportBpm
            time := { bars := 0, beats := n.position, sixteenths := 0 }
            velocity := n.velocity }) }

/-- `AudioEngine.stop`: stop the transport (position returns to 0), cancel every
registered trigger, `releaseAll` on every registered synth, clear the playing
flag. -/
def stop (s : EngineState) : EngineState :=
  { s with
    transportStarted := false
    transportPosition := 0
    scheduled := []
    allSynths := mapWithIdx
      (fun i sy => if s.synths.any (fun p => p.2 == i) then { sy with sounding := false } else sy)
      0 s.allSynths
    isPlaying := false }

/-- `AudioEngine.play`: set the tempo, stop (tearing down any running session),
schedule every non-muted track, start the transport, set the playing flag. -/
def play (tracks : List Track) (tempo : ℚ) (s : EngineState) : EngineState :=
  let s1 := stop (setTempo tempo s)
  let s2 := tracks.foldl (fun acc t => if t.muted then acc else scheduleTrack t acc) s1
  { s2 with transportStarted := true, isPlaying := true }

/-- `AudioEngine.getIsPlaying`. -/
def getIsPlaying (s : EngineState) : Bool := s.isPlaying

/-- The engine's state at construction: empty registry, transport at the
library's default 120 bpm, stopped, nothing scheduled. -/
def engineInit : EngineState :=
  { synths := [], allSynths := [], transportBpm := 120, transportStarted := false
    transportPosition := 0, scheduled := [], isPlaying := false }

/-- Total beats denoted by a bars:beats:sixteenths transport time: a bar
boundary every 4 beats, 4 sixteenths to a beat. -/
def transportBeats (t : TransportTime) : ℚ := t.bars * 4 + t.beats + t.sixteenths / 4

/-- The bar a transport time falls in: one bar per 4 beats. -/
def barOf (t : TransportTime) : ℤ := ⌊transportBeats t / 4⌋

/-- The beat offset of a transport time within its bar. -/
def beatInBar (t : TransportTime) : ℚ := transportBeats t - 4 * (barOf t : ℚ)

/-- Wall-clock onset of a registered trigger under the transport's current
tempo: one beat lasts `60 / bpm` seconds, and trigger start times, held in
musical bars:beats:sixteenths form, are reinterpreted at the current tempo. -/
def onsetSeconds (s : EngineState) (tr : Trigger) : ℚ :=
  transportBeats tr.time * (60 / s.transportBpm)

/-- The beats-per-duration-class map in the spec's words: whole 4, half 2,
quarter 1, eighth 1/2, sixteenth 1/4. -/
def beatsFor (d : NoteDuration) : ℚ :=
  match d with
  | .whole => 4
  | .half => 2
  | .quarter => 1
  | .eighth => 1/2
  | .sixteenth => 1/4

/-- A session is stopped when the transport is halted at position 0, no
triggers are pending, the playing flag is down, and no registered synth has
notes sounding. -/
def IsStopped (s : EngineState) : Prop :=
  s.transportStarted = false ∧ s.transportPosition = 0 ∧ s.scheduled = []
  ∧ s.isPlaying = false
  ∧ ∀ i sy, s.synths.any (fun p => p.2 == i) = true → s.allSynths[i]? = some sy →
      sy.sounding = false

/-! Concrete fixtures used by scenario conjuncts, counterexamples and
witnesses. -/

/-- The spec scenario's single note: C, octave 4, a quarter, position 0,
velocity 0.8. -/
def pianoNote : Note :=
  { id := "n1", trackId := "A", pitch := "C", octave := 4, duration := .quarter
    position := 0, velocity := 4/5 }

/-- The spec scenario's track A: instrument piano, one note. -/
def pianoTrack : Track :=
  { id := "A", instrumentType := "piano", volume := 1, muted := false, solo := false
    notes := [pianoNote] }

/-- A quarter note at beat 4, for the tempo-change scenario. -/
def beatFourNote : Note :=
  { id := "n4", trackId := "P", pitch := "C", octave := 4, duration := .quarter
    position := 4, velocity := 4/5 }

/-- A track with one note at beat 4, for the tempo-change scenario. -/
def beatFourTrack : Track :=
  { id := "P", instrumentType := "piano", volume := 1, muted := false, solo := false
    notes := [beatFourNote] }

/-- The trigger the engine registers for `beatFourTrack` at 120 bpm. -/
def beatFourTrigger : Trigger :=
  { synthIdx := 0, noteName := "C4", durationSeconds := 1/2
    time := { bars := 0, beats := 4, sixteenths := 0 }, velocity := 4/5 }

/-- A track with `solo := true`, for the solo-resolution counterexample. -/
def soloTrackA : Track :=
  { id := "A", instrumentType := "piano", volume := 1/2, muted := false, solo := true
    notes := [{ id := "na", trackId := "A", pitch := "E", octave := 3
                duration := .quarter, position := 0, velocity := 1 }] }

/-- A non-muted track with `solo := false`, played alongside `soloTrackA`. -/
def plainTrackB : Track :=
  { id := "B", instrumentType := "bass", volume := 7/10, muted := false, solo := false
    notes := [{ id := "nb", trackId := "B", pitch := "G", octave := 2
                duration := .eighth, position := 1, velocity := 9/10 }] }

/-- A muted track, for the mute-resolution scenario. -/
def mutedTrackA : Track :=
  { id := "MA", instrumentType := "drums", volume := 1, muted := true, solo := false
    notes := [{ id := "ma1", trackId := "MA", pitch := "C", octave := 2
                duration := .quarter, position := 0, velocity := 1 }] }

/-- A non-muted two-note track played alongside `mutedTrackA`. -/
def liveTrackB : Track :=
  { id := "LB", instrumentType := "synth", volume := 3/5, muted := false, solo := false
    notes := [{ id := "lb1", trackId := "LB", pitch := "A", octave := 3
                duration := .eighth, position := 0, velocity := 1/2 },
              { id := "lb2", trackId := "LB", pitch := "B", octave := 3
                duration := .sixteenth, position := 2, velocity := 3/4 }] }

/-- A track with id "A" but instrument kind guitar, for the reuse claim. -/
def guitarTrackA : Track :=
  { id := "A", instrumentType := "guitar", volume := 1, muted := false, solo := false
    notes := [] }

/-! Helper lemmas about the association list, `modifyIdx` and `mapWithIdx`. -/

theorem lookupA_setA_self (l : List (String × Nat)) (k : String) (v : Nat) :
    lookupA (setA l k v) k = some v := by
  induction l with
  | nil => simp [setA, lookupA]
  | cons p rest ih =>
    obtain ⟨k2, v2⟩ := p
    by_cases h : k2 = k
    · simp [setA, lookupA, h]
    · simp [setA, lookupA, h, ih]

theorem countKey_setA_ne (l : List (String × Nat)) (k k3 : String) (v : Nat)
    (h : k3 ≠ k) : countKey (setA l k v) k3 = countKey l k3 := by
  induction l with
  | nil =>
    have h2 : ¬(k = k3) := fun he => h he.symm
    simp [setA, countKey, h2]
  | cons p rest ih =>
    obtain ⟨k2, v2⟩ := p
    by_cases hk : k2 = k
    · simp [setA, hk, countKey]
    · simp [setA, hk, countKey, ih]

theorem countKey_setA (l : List (String × Nat)) (k : String) (v : Nat)
    (h : ∀ k2, countKey l k2 ≤ 1) : countKey (setA l k v) k = 1 := by
  induction l with
  | nil => simp [setA, countKey]
  | cons p rest ih =>
    obtain ⟨k2, v2⟩ := p
    by_cases hk : k2 = k
    · have hb := h k
      simp [countKey, hk] at hb
      simp [setA, hk, countKey, hb]
    · have hrest : ∀ k3, countKey rest k3 ≤ 1 := by
        intro k3
        have hb := h k3
        simp [countKey] at hb
        omega
      simp [setA, hk, countKey, ih hrest]

theorem countKey_setA_le (l : List (String × Nat)) (k : String) (v : Nat)
    (h : ∀ k2, countKey l k2 ≤ 1) (k3 : String) : countKey (setA l k v) k3 ≤ 1 := by
  by_cases hk : k3 = k
  · subst hk; simp [countKey_setA l k3 v h]
  · rw [countKey_setA_ne l k k3 v hk]; exact h k3

theorem modifyIdx_length (l : List α) (i : Nat) (f : α → α) :
    (modifyIdx l i f).length = l.length := by
  induction l generalizing i with
  | nil => rfl
  | cons a rest ih =>
    cases i with
    | zero => simp [modifyIdx]
    | succ n => simp [modifyIdx, ih]

theorem modifyIdx_append_length (l : List α) (a : α) (f : α → α) :
    modifyIdx (l ++ [a]) l.length f = l ++ [f a] := by
  induction l with
  | nil => rfl
  | cons b rest ih => simp [modifyIdx, ih]

theorem map_modifyIdx (l : List α) (i : Nat) (f : α → α) (g : α → β)
    (h : ∀ a, g (f a) = g a) : (modifyIdx l i f).map g = l.map g := by
  induction l generalizing i with
  | nil => rfl
  | cons a rest ih =>
    cases i with
    | zero => simp [modifyIdx, h]
    | succ n => simp [modifyIdx, ih]

theorem mapWithIdx_eq_self (f : Nat → α → α) (k : Nat) (l : List α)
    (h : ∀ i a, l[i]? = some a → f (k + i) a = a) : mapWithIdx f k l = l := by
  induction l generalizing k with
  | nil => rfl
  | cons a rest ih =>
    have h0 : f k a = a := by
      have := h 0 a (by simp)
      simpa using this
    have hrest : mapWithIdx f (k + 1) rest = rest := by
      apply ih
      intro i b hb
      have := h (i + 1) b (by simpa using hb)
      have harith : k + (i + 1) = k + 1 + i := by omega
      rwa [harith] at this
    simp [mapWithIdx, h0, hrest]

/-! Helper lemmas about the engine operations. -/

theorem setTrackVolume_synths (trackId : String) (v : ℚ) (s : EngineState) :
    (setTrackVolume trackId v s).synths = s.synths := by
  unfold setTrackVolume
  cases lookupA s.synths trackId <;> rfl

/-- `scheduleTrack` reads no field the `solo` update changes, so it is
oblivious to it. -/
theorem scheduleTrack_solo (t : Track) (b : Bool) (s : EngineState) :
    scheduleTrack { t with solo := b } s = scheduleTrack t s := rfl

/-- The scheduling fold of `play` skips muted tracks, so folding over the
non-muted sublist gives the same state. -/
theorem foldlSched_filter (tracks : List Track) (s0 : EngineState) :
    tracks.foldl (fun acc t => if t.muted then acc else scheduleTrack t acc) s0
      = (tracks.filter (fun t => !t.muted)).foldl
          (fun acc t => if t.muted then acc else scheduleTrack t acc) s0 := by
  induction tracks generalizing s0 with
  | nil => rfl
  | cons t rest ih =>
    cases h : t.muted with
    | true => simp [List.filter_cons, h, ih]
    | false => simp [List.filter_cons, h, ih]

/-- `play` treats the track list and its non-muted sublist identically. -/
theorem play_filter_muted (tracks : List Track) (tempo : ℚ) (s : EngineState) :
    play tracks tempo s = play (tracks.filter (fun t => !t.muted)) tempo s := by
  simp only [play]
  rw [foldlSched_filter]

/-- `play` never reads any track's `solo` flag. -/
theorem play_solo_invariant (f : Track → Bool) (tracks : List Track) (tempo : ℚ)
    (s : EngineState) :
    play (tracks.map (fun t => { t with solo := f t })) tempo s = play tracks tempo s := by
  simp only [play, List.foldl_map]
  rfl

/-! Claim theorems. -/

/-- C1 counterexample: the claim predicts that with `soloTrackA` having
`solo = true`, the non-solo, non-muted `plainTrackB` is resolved to effective
gain 0 and contributes no audible output. On the code, after
`play [soloTrackA, plainTrackB] 120`, track B's voice-group is set to B's own
volume 7/10 ≠ 0 and one trigger is registered for it: the engine never reads
the `solo` flag. -/
theorem C1_solo_counterexample :
    soloTrackA.solo = true ∧ plainTrackB.solo = false ∧ plainTrackB.muted = false
    ∧ effectiveGain plainTrackB = 7/10 ∧ (7/10 : ℚ) ≠ 0
    ∧ lookupA (play [soloTrackA, plainTrackB] 120 engineInit).synths "B" = some 1
    ∧ ((play [soloTrackA, plainTrackB] 120 engineInit).allSynths[1]?).map Synth.gainLinear
        = some (7/10)
    ∧ ((play [soloTrackA, plainTrackB] 120 engineInit).scheduled.filter
        (fun tr => tr.synthIdx == 1)).length = 1 := by
  refine ⟨rfl, rfl, rfl, rfl, by norm_num, rfl, rfl, rfl⟩

/-- C1 amended: the engine ignores `solo` entirely — `play` is invariant under
arbitrary rewrites of every track's `solo` flag, and the only gain resolution
is mute-override: a muted track's effective gain is 0, a non-muted track plays
at its own volume regardless of any solo flags. -/
theorem C1_solo_ignored :
    (∀ (f : Track → Bool) (tracks : List Track) (tempo : ℚ) (s : EngineState),
       play (tracks.map (fun t => { t with solo := f t })) tempo s = play tracks tempo s)
    ∧ (∀ t : Track, t.muted = true → effectiveGain t = 0)
    ∧ (∀ t : Track, t.muted = false → effectiveGain t = t.volume) := by
  refine ⟨play_solo_invariant, ?_, ?_⟩
  · intro t h; simp [effectiveGain, h]
  · intro t h; simp [effectiveGain, h]

/-- C1 witness: the amended theorem applied at concrete inputs — flipping the
solo flags of the two-track fixture does not change the result of `play`, and
mute still forces gain 0. -/
theorem C1_solo_ignored_witness :
    play ([soloTrackA, plainTrackB].map (fun t => { t with solo := (fun _ => true) t }))
        120 engineInit
      = play [soloTrackA, plainTrackB] 120 engineInit
    ∧ mutedTrackA.muted = true ∧ effectiveGain mutedTrackA = 0 :=
  ⟨C1_solo_ignored.1 (fun _ => true) [soloTrackA, plainTrackB] 120 engineInit,
   rfl, C1_solo_ignored.2.1 mutedTrackA rfl⟩

/-- C2 counterexample: the claim predicts `play []` is a no-op with the clock
not started and the session not playing; on the code `play [] 120` from the
initial state schedules nothing but does start the transport and does set the
playing flag. -/
theorem C2_empty_play_counterexample :
    (play [] 120 engineInit).scheduled = []
    ∧ (play [] 120 engineInit).transportStarted = true
    ∧ getIsPlaying (play [] 120 engineInit) = true :=
  ⟨rfl, rfl, rfl⟩

/-- C2 amended: `play` on an empty track list schedules no trigger, but it
still starts the transport clock and puts the session in the playing state
(it also applies the tempo and the stop teardown unconditionally). -/
theorem C2_empty_play :
    ∀ (tempo : ℚ) (s : EngineState),
      (play [] tempo s).scheduled = []
      ∧ (play [] tempo s).transportStarted = true
      ∧ getIsPlaying (play [] tempo s) = true := by
  intro tempo s
  exact ⟨rfl, rfl, rfl⟩

/-- C3: every note of a non-muted track played alone is registered as exactly
one trigger, at bars:beats:sixteenths position `0:position:0` (which denotes
`position` beats, with a bar boundary every 4 beats), whose action is
attack-release of pitch++octave with the note's velocity and a duration in
seconds computed at schedule time from the tempo; in particular
`play [pianoTrack] 120` registers exactly one trigger at bar 0, beat 0 with
duration 1/2 s and velocity 4/5. -/
theorem C3_per_note_trigger :
    (∀ (t : Track) (tempo : ℚ), t.muted = false →
       (play [t] tempo engineInit).scheduled
         = t.notes.map (fun n =>
             { synthIdx := 0, noteName := mkNoteName n
               durationSeconds := getDurationInSeconds n.duration tempo
               time := { bars := 0, beats := n.position, sixteenths := 0 }
               velocity := n.velocity }))
    ∧ (∀ n : Note,
        transportBeats { bars := 0, beats := n.position, sixteenths := 0 } = n.position)
    ∧ (play [pianoTrack] 120 engineInit).scheduled
        = [{ synthIdx := 0, noteName := "C4", durationSeconds := 1/2
             time := { bars := 0, beats := 0, sixteenths := 0 }, velocity := 4/5 }]
    ∧ barOf { bars := 0, beats := (0 : ℚ), sixteenths := 0 } = 0
    ∧ beatInBar { bars := 0, beats := (0 : ℚ), sixteenths := 0 } = 0 := by
  refine ⟨?_, ?_, ?_, ?_, ?_⟩
  · intro t tempo h
    simp [play, stop, setTempo, scheduleTrack, createInstrument, setTrackVolume,
      lookupA, setA, modifyIdx, mapWithIdx, effectiveGain, engineInit, h]
  · intro n
    simp [transportBeats]
  · norm_num [play, stop, setTempo, scheduleTrack, createInstrument, setTrackVolume,
      lookupA, setA, modifyIdx, mapWithIdx, effectiveGain, getDurationInSeconds,
      mkNoteName, newSynth, presetFor, engineInit, pianoTrack, pianoNote]
    decide
  · norm_num [barOf, transportBeats]
  · norm_num [beatInBar, barOf, transportBeats]

/-- C3 witness: the general per-note conjunct applied to the concrete piano
track, whose `muted` flag is concretely false. -/
theorem C3_per_note_trigger_witness :
    pianoTrack.muted = false
    ∧ (play [pianoTrack] 120 engineInit).scheduled
        = pianoTrack.notes.map (fun n =>
            { synthIdx := 0, noteName := mkNoteName n
              durationSeconds := getDurationInSeconds n.duration 120
              time := { bars := 0, beats := n.position, sixteenths := 0 }
              velocity := n.velocity }) :=
  ⟨rfl, C3_per_note_trigger.1 pianoTrack 120 rfl⟩

/-- C4: `getDurationInSeconds d b` equals `60 / b` times the beats of the
duration class (whole 4, half 2, quarter 1, eighth 1/2, sixteenth 1/4), is
strictly decreasing in the tempo, and a whole lasts 4 quarters. -/
theorem C4_duration_formula :
    (∀ (d : NoteDuration) (b : ℚ), 0 < b →
       getDurationInSeconds d b = 60 / b * beatsFor d)
    ∧ (∀ (d : NoteDuration) (b1 b2 : ℚ), 0 < b1 → b1 < b2 →
       getDurationInSeconds d b2 < getDurationInSeconds d b1)
    ∧ (∀ b : ℚ, 0 < b →
       getDurationInSeconds .whole b = 4 * getDurationInSeconds .quarter b) := by
  refine ⟨?_, ?_, ?_⟩
  · intro d b _
    cases d <;> simp [getDurationInSeconds, beatsFor] <;> ring
  · intro d b1 b2 h1 h12
    have key : 60 / b2 < 60 / b1 := div_lt_div_of_pos_left (by norm_num) h1 h12
    cases d <;> simp only [getDurationInSeconds] <;> linarith
  · intro b _
    simp [getDurationInSeconds]
    ring

/-- C4 witness: the three conjuncts applied at tempos 60 and 120. -/
theorem C4_duration_formula_witness :
    (0 : ℚ) < 120 ∧ (0 : ℚ) < 60 ∧ (60 : ℚ) < 120
    ∧ getDurationInSeconds .quarter 120 = 60 / 120 * beatsFor .quarter
    ∧ getDurationInSeconds .quarter 120 < getDurationInSeconds .quarter 60
    ∧ getDurationInSeconds .whole 120 = 4 * getDurationInSeconds .quarter 120 :=
  ⟨by norm_num, by norm_num, by norm_num,
   C4_duration_formula.1 .quarter 120 (by norm_num),
   C4_duration_formula.2.1 .quarter 60 120 (by norm_num) (by norm_num),
   C4_duration_formula.2.2 120 (by norm_num)⟩

/-- C5: `setTempo` leaves every registered trigger — in particular its
precomputed duration in seconds — unchanged, while a trigger's onset, held in
musical transport form, is reinterpreted at the new tempo; concretely, the
beat-4 note scheduled at 120 bpm keeps duration 1/2 s after `setTempo 60`
but its onset moves from 2 s to 4 s. -/
theorem C5_tempo_change_asymmetry :
    (∀ (s : EngineState) (b : ℚ), (setTempo b s).scheduled = s.scheduled)
    ∧ (∀ (s : EngineState) (b : ℚ) (tr : Trigger), tr ∈ s.scheduled →
         tr ∈ (setTempo b s).scheduled
         ∧ onsetSeconds (setTempo b s) tr = transportBeats tr.time * (60 / b))
    ∧ (setTempo 60 (play [beatFourTrack] 120 engineInit)).scheduled
        = (play [beatFourTrack] 120 engineInit).scheduled
    ∧ (play [beatFourTrack] 120 engineInit).scheduled = [beatFourTrigger]
    ∧ beatFourTrigger.durationSeconds = 1/2
    ∧ onsetSeconds (play [beatFourTrack] 120 engineInit) beatFourTrigger = 2
    ∧ onsetSeconds (setTempo 60 (play [beatFourTrack] 120 engineInit)) beatFourTrigger
        = 4 := by
  refine ⟨fun s b => rfl, fun s b tr h => ⟨h, rfl⟩, rfl, ?_, rfl, ?_, ?_⟩
  · norm_num [play, stop, setTempo, scheduleTrack, createInstrument, setTrackVolume,
      lookupA, setA, modifyIdx, mapWithIdx, effectiveGain, getDurationInSeconds,
      mkNoteName, newSynth, presetFor, engineInit, beatFourTrack, beatFourNote,
      beatFourTrigger]
    decide
  · norm_num [onsetSeconds, transportBeats, beatFourTrigger, play, stop, setTempo,
      scheduleTrack, createInstrument, setTrackVolume, lookupA, setA, modifyIdx,
      mapWithIdx, effectiveGain, engineInit, beatFourTrack, beatFourNote]
  · norm_num [onsetSeconds, transportBeats, beatFourTrigger, play, stop, setTempo,
      scheduleTrack, createInstrument, setTrackVolume, lookupA, setA, modifyIdx,
      mapWithIdx, effectiveGain, engineInit, beatFourTrack, beatFourNote]

/-- C5 witness: the quantified conjunct applied to the concrete trigger of the
beat-4 scenario, discharging the membership hypothesis there. -/
theorem C5_tempo_change_asymmetry_witness :
    beatFourTrigger ∈ (play [beatFourTrack] 120 engineInit).scheduled
    ∧ onsetSeconds (setTempo 60 (play [beatFourTrack] 120 engineInit)) beatFourTrigger
        = transportBeats beatFourTrigger.time * (60 / 60) := by
  have hmem : beatFourTrigger ∈ (play [beatFourTrack] 120 engineInit).scheduled := by
    rw [C5_tempo_change_asymmetry.2.2.2.1]
    exact List.mem_singleton_self _
  exact ⟨hmem, (C5_tempo_change_asymmetry.2.1 _ 60 _ hmem).2⟩

/-- C6: creating an instrument twice for the same track id (from any registry
state holding at most one binding per id) leaves exactly one binding for that
id, pointing at the live synth of the second call, while the synth the first
call created is disposed. -/
theorem C6_registry_single_live :
    ∀ (s : EngineState) (id k1 k2 : String),
      (∀ k, countKey s.synths k ≤ 1) →
      (lookupA (createInstrument id k2 (createInstrument id k1 s)).synths id
          = some (s.allSynths.length + 1)
       ∧ (createInstrument id k2 (createInstrument id k1 s)).allSynths[s.allSynths.length + 1]?
           = some (newSynth k2)
       ∧ (createInstrument id k2 (createInstrument id k1 s)).allSynths[s.allSynths.length]?
           = some (disposeS (newSynth k1))
       ∧ countKey (createInstrument id k2 (createInstrument id k1 s)).synths id = 1) := by
  intro s id k1 k2 hbound
  have hX : ∃ X : List Synth, X.length = s.allSynths.length
      ∧ (createInstrument id k1 s).allSynths = X ++ [newSynth k1]
      ∧ (createInstrument id k1 s).synths = setA s.synths id s.allSynths.length := by
    cases hl : lookupA s.synths id with
    | none => exact ⟨s.allSynths, rfl, by simp [createInstrument, hl], by simp [createInstrument, hl]⟩
    | some i =>
      refine ⟨modifyIdx s.allSynths i disposeS, modifyIdx_length _ _ _, ?_, ?_⟩ <;>
        simp [createInstrument, hl, modifyIdx_length]
  obtain ⟨X, hXlen, hXall, hXsyn⟩ := hX
  set s1 := createInstrument id k1 s with hs1
  have hlook1 : lookupA s1.synths id = some s.allSynths.length := by
    rw [hXsyn]; exact lookupA_setA_self _ _ _
  have h2all : (createInstrument id k2 s1).allSynths
      = (X ++ [disposeS (newSynth k1)]) ++ [newSynth k2] := by
    simp only [createInstrument, hlook1]
    rw [hXall, ← hXlen, modifyIdx_append_length]
  have h2syn : (createInstrument id k2 s1).synths
      = setA s1.synths id (s.allSynths.length + 1) := by
    simp only [createInstrument, hlook1]
    rw [modifyIdx_length, hXall]
    simp [hXlen]
  refine ⟨?_, ?_, ?_, ?_⟩
  · rw [h2syn]; exact lookupA_setA_self _ _ _
  · have hlen2 : (X ++ [disposeS (newSynth k1)]).length = s.allSynths.length + 1 := by
      simp [hXlen]
    rw [h2all, ← hlen2]
    exact List.getElem?_concat_length _ _
  · have hlt : s.allSynths.length < (X ++ [disposeS (newSynth k1)]).length := by
      simp [hXlen]
    rw [h2all, List.getElem?_append_left hlt, ← hXlen]
    exact List.getElem?_concat_length _ _
  · rw [h2syn]
    apply countKey_setA
    intro k
    rw [hXsyn]
    exact countKey_setA_le _ _ _ hbound k

/-- C6 witness: the registry theorem applied at the initial engine state, where
the at-most-one-binding bound holds trivially. -/
theorem C6_registry_single_live_witness :
    (∀ k, countKey engineInit.synths k ≤ 1)
    ∧ lookupA (createInstrument "A" "synth" (createInstrument "A" "piano" engineInit)).synths "A"
        = some (engineInit.allSynths.length + 1)
    ∧ countKey (createInstrument "A" "synth" (createInstrument "A" "piano" engineInit)).synths "A"
        = 1 :=
  ⟨fun k => by simp [engineInit, countKey],
   (C6_registry_single_live engineInit "A" "piano" "synth"
      (fun k => by simp [engineInit, countKey])).1,
   (C6_registry_single_live engineInit "A" "piano" "synth"
      (fun k => by simp [engineInit, countKey])).2.2.2⟩

/-- C7: a muted track's effective gain is 0 regardless of volume and solo;
`play` skips muted tracks entirely (it equals `play` on the non-muted
sublist); concretely `play [mutedTrackA, liveTrackB] 100` registers no synth
and no trigger for the muted track and schedules both notes of the live track
at its own volume. -/
theorem C7_mute_resolution :
    (∀ t : Track, t.muted = true → effectiveGain t = 0)
    ∧ (∀ (tracks : List Track) (tempo : ℚ) (s : EngineState),
         play tracks tempo s = play (tracks.filter (fun t => !t.muted)) tempo s)
    ∧ lookupA (play [mutedTrackA, liveTrackB] 100 engineInit).synths "MA" = none
    ∧ (play [mutedTrackA, liveTrackB] 100 engineInit).scheduled
        = [{ synthIdx := 0, noteName := "A3", durationSeconds := 3/10
             time := { bars := 0, beats := 0, sixteenths := 0 }, velocity := 1/2 },
           { synthIdx := 0, noteName := "B3", durationSeconds := 3/20
             time := { bars := 0, beats := 2, sixteenths := 0 }, velocity := 3/4 }]
    ∧ ((play [mutedTrackA, liveTrackB] 100 engineInit).allSynths[0]?).map Synth.gainLinear
        = some (3/5) := by
  refine ⟨fun t h => by simp [effectiveGain, h], play_filter_muted, rfl, ?_, rfl⟩
  norm_num [play, stop, setTempo, scheduleTrack, createInstrument, setTrackVolume,
    lookupA, setA, modifyIdx, mapWithIdx, effectiveGain, getDurationInSeconds,
    mkNoteName, newSynth, presetFor, engineInit, mutedTrackA, liveTrackB]
  decide

/-- C7 witness: the mute conjunct applied to the concrete muted track. -/
theorem C7_mute_resolution_witness :
    mutedTrackA.muted = true ∧ effectiveGain mutedTrackA = 0 :=
  ⟨rfl, C7_mute_resolution.1 mutedTrackA rfl⟩

/-- C8: `stop` on an already-stopped session (transport halted at position 0,
nothing scheduled, playing flag down, no registered synth sounding) is a
no-op: it returns the state unchanged. -/
theorem C8_stop_idempotent :
    ∀ s : EngineState, IsStopped s → stop s = s := by
  intro s h
  obtain ⟨h1, h2, h3, h4, h5⟩ := h
  cases s with
  | mk syn all bpm started pos sched playing =>
    simp only at h1 h2 h3 h4
    subst h1 h2 h3 h4
    simp only [stop, EngineState.mk.injEq, and_true, true_and]
    apply mapWithIdx_eq_self
    intro i a hget
    simp only [Nat.zero_add]
    by_cases hc : syn.any (fun p => p.2 == i) = true
    · rw [if_pos hc]
      have hs := h5 i a hc hget
      cases a
      simp_all
    · rw [if_neg hc]

/-- C8 witness: the initial state is stopped, and `stop` leaves it unchanged. -/
theorem C8_stop_idempotent_witness :
    IsStopped engineInit ∧ stop engineInit = engineInit := by
  have hstopped : IsStopped engineInit :=
    ⟨rfl, rfl, rfl, rfl, by intro i sy hany _; simp [engineInit] at hany⟩
  exact ⟨hstopped, C8_stop_idempotent engineInit hstopped⟩

/-- C9: `createInstrument` is total — for every track id and every kind it
registers a freshly constructed live synth — the six known kinds select their
fixed presets, and any other kind falls back to the default preset instead of
failing. -/
theorem C9_create_instrument_total :
    (∀ (id kind : String) (s : EngineState),
       lookupA (createInstrument id kind s).synths id = some s.allSynths.length
       ∧ (createInstrument id kind s).allSynths[s.allSynths.length]? = some (newSynth kind))
    ∧ presetFor "drums" = { engine := "MembraneSynth", oscillator := none, envelope := none }
    ∧ presetFor "bass"
        = { engine := "MonoSynth", oscillator := some "sawtooth",
            envelope := some { attack := 1/100, decay := 1/5, sustain := 3/10, release := 1/2 } }
    ∧ presetFor "synth"
        = { engine := "Synth", oscillator := some "square",
            envelope := some { attack := 5/1000, decay := 1/10, sustain := 3/10, release := 1 } }
    ∧ presetFor "piano"
        = { engine := "Synth", oscillator := some "triangle",
            envelope := some { attack := 1/50, decay := 1/10, sustain := 3/5, release := 1 } }
    ∧ presetFor "guitar"
        = { engine := "Synth", oscillator := some "triangle",
            envelope := some { attack := 1/100, decay := 2/5, sustain := 1/5, release := 7/5 } }
    ∧ presetFor "pad"
        = { engine := "Synth", oscillator := some "sine",
            envelope := some { attack := 4/5, decay := 1/2, sustain := 4/5, release := 2 } }
    ∧ (∀ kind : String,
        kind ∉ (["drums", "bass", "synth", "piano", "guitar", "pad"] : List String) →
        presetFor kind = { engine := "Synth", oscillator := none, envelope := none }) := by
  refine ⟨?_, rfl, rfl, rfl, rfl, rfl, rfl, ?_⟩
  · intro id kind s
    cases hl : lookupA s.synths id with
    | none =>
      constructor
      · simp only [createInstrument, hl]
        exact lookupA_setA_self _ _ _
      · simp only [createInstrument, hl]
        exact List.getElem?_concat_length _ _
    | some i =>
      constructor
      · simp only [createInstrument, hl]
        rw [modifyIdx_length]
        exact lookupA_setA_self _ _ _
      · simp only [createInstrument, hl]
        conv_lhs => rw [show s.allSynths.length = (modifyIdx s.allSynths i disposeS).length from
          (modifyIdx_length _ _ _).symm]
        exact List.getElem?_concat_length _ _
  · intro kind h
    simp only [List.mem_cons, List.not_mem_nil, or_false, not_or] at h
    obtain ⟨h1, h2, h3, h4, h5, h6⟩ := h
    simp [presetFor, h1, h2, h3, h4, h5, h6]

/-- C9 witness: the fallback applied to an unknown kind. -/
theorem C9_create_instrument_total_witness :
    ("flute" ∉ (["drums", "bass", "synth", "piano", "guitar", "pad"] : List String))
    ∧ presetFor "flute" = { engine := "Synth", oscillator := none, envelope := none } :=
  ⟨by decide, C9_create_instrument_total.2.2.2.2.2.2.2 "flute" (by decide)⟩

/-- C10: `scheduleTrack` reuses a registered voice-group as-is — when the
registry already binds the track's id, the registry bindings and every synth's
preset and disposed flag are unchanged, so an instrument-kind change on the
track is not picked up; only when no binding exists does it create a synth,
and then with the track's current kind. -/
theorem C10_schedule_reuses_existing :
    (∀ (t : Track) (s : EngineState) (i : Nat), lookupA s.synths t.id = some i →
       (scheduleTrack t s).synths = s.synths
       ∧ (scheduleTrack t s).allSynths.map (fun sy => (sy.preset, sy.disposed))
           = s.allSynths.map (fun sy => (sy.preset, sy.disposed)))
    ∧ (∀ (t : Track) (s : EngineState), lookupA s.synths t.id = none →
       lookupA (scheduleTrack t s).synths t.id = some s.allSynths.length
       ∧ ((scheduleTrack t s).allSynths[s.allSynths.length]?).map Synth.preset
           = some (presetFor t.instrumentType)) := by
  constructor
  · intro t s i h
    constructor
    · simp [scheduleTrack, setTrackVolume, h]
    · simp [scheduleTrack, setTrackVolume, h]
      exact map_modifyIdx _ _ _ _ (fun a => rfl)
  · intro t s h
    have hsyn : (createInstrument t.id t.instrumentType s).synths
        = setA s.synths t.id s.allSynths.length := by
      simp [createInstrument, h]
    have hall : (createInstrument t.id t.instrumentType s).allSynths
        = s.allSynths ++ [newSynth t.instrumentType] := by
      simp [createInstrument, h]
    have hlook : lookupA (createInstrument t.id t.instrumentType s).synths t.id
        = some s.allSynths.length := by
      rw [hsyn]; exact lookupA_setA_self _ _ _
    constructor
    · simp [scheduleTrack, setTrackVolume, h, hlook, hsyn, lookupA_setA_self]
    · simp [scheduleTrack, setTrackVolume, h, hlook, hsyn, hall, lookupA_setA_self,
        modifyIdx_length, modifyIdx_append_length, List.getElem?_concat_length, newSynth]

/-- C10 witness: a synth created for id "A" with kind piano is reused untouched
by `scheduleTrack` on a track with the same id but kind guitar. -/
theorem C10_schedule_reuses_existing_witness :
    lookupA (createInstrument "A" "piano" engineInit).synths guitarTrackA.id = some 0
    ∧ (scheduleTrack guitarTrackA (createInstrument "A" "piano" engineInit)).synths
        = (createInstrument "A" "piano" engineInit).synths
    ∧ (scheduleTrack guitarTrackA (createInstrument "A" "piano" engineInit)).allSynths.map
        (fun sy => (sy.preset, sy.disposed))
        = (createInstrument "A" "piano" engineInit).allSynths.map
            (fun sy => (sy.preset, sy.disposed)) :=
  ⟨rfl,
   (C10_schedule_reuses_existing.1 guitarTrackA (createInstrument "A" "piano" engineInit)
      0 rfl).1,
   (C10_schedule_reuses_existing.1 guitarTrackA (createInstrument "A" "piano" engineInit)
      0 rfl).2⟩

end RCV
